import Mathlib

/-!
Verification development for the replies-engine repository.

The repository implements a two-stage reply-processing pipeline:

* Stage A (staging lambda, `src/staging_lambda/lambda_pkg/index.py`):
  webhook parsing, credential lookup, Twilio signature validation,
  staging-table write, trigger-lock acquisition and SQS enqueue.
* Stage B (messaging lambda, `src/messaging_lambda/whatsapp/lambda_pkg`):
  processing-lock acquisition, staged-fragment merge, OpenAI call,
  Twilio send, conditional commit of the conversation history, cleanup.

The Lean definitions below are a shallow embedding of the Python source:
pure computations are translated directly, and each external call
(DynamoDB, Secrets Manager, OpenAI, Twilio, SQS, the heartbeat thread)
is driven by an explicit environment value recording the outcome the
call would have produced.  Machine-level string comparison is embedded
with structurally recursive functions over the character lists backing
Lean strings; these coincide with the Python code-point-wise string
order used by `list.sort`.
-/

/-- Truthiness of an optional string, as Python evaluates it: an absent
value and the empty string are falsy, every other string is truthy. -/
def optTruthy : Option String → Bool
  | none => false
  | some s => !s.isEmpty

/-- Code-point comparison on characters, as in Python. -/
def charValN (c : Char) : Nat := c.val.toNat

/-- Strict lexicographic order on character lists (Python string `<`). -/
def charListLtB : List Char → List Char → Bool
  | _, [] => false
  | [], _ :: _ => true
  | a :: as, b :: bs =>
    if charValN a < charValN b then true
    else if charValN b < charValN a then false
    else charListLtB as bs

/-- Lexicographic order on character lists (Python string `<=`). -/
def charListLeB : List Char → List Char → Bool
  | [], _ => true
  | _ :: _, [] => false
  | a :: as, b :: bs =>
    if charValN a < charValN b then true
    else if charValN b < charValN a then false
    else charListLeB as bs

theorem charListLeB_total : ∀ a b : List Char,
    charListLeB a b = true ∨ charListLeB b a = true
  | [], _ => Or.inl rfl
  | _ :: _, [] => Or.inr rfl
  | a :: as, b :: bs => by
    rcases Nat.lt_trichotomy (charValN a) (charValN b) with h | h | h
    · left; simp [charListLeB, h]
    · have h' : ¬ charValN a < charValN b := by omega
      have h'' : ¬ charValN b < charValN a := by omega
      rcases charListLeB_total as bs with ih | ih
      · left; simp [charListLeB, h', h'', ih]
      · right; simp [charListLeB, h', h'', ih]
    · right; simp [charListLeB, h, Nat.lt_asymm h]

theorem charListLeB_trans : ∀ a b c : List Char,
    charListLeB a b = true → charListLeB b c = true → charListLeB a c = true
  | [], _, _, _, _ => rfl
  | _ :: _, [], _, h, _ => by simp [charListLeB] at h
  | _ :: _, _ :: _, [], _, h => by simp [charListLeB] at h
  | a :: as, b :: bs, c :: cs, hab, hbc => by
    by_cases h1 : charValN a < charValN b
    · by_cases h2 : charValN b < charValN c
      · have : charValN a < charValN c := Nat.lt_trans h1 h2
        simp [charListLeB, this]
      · by_cases h3 : charValN c < charValN b
        · simp [charListLeB, h2, h3] at hbc
        · have hbceq : charValN b = charValN c := by omega
          have : charValN a < charValN c := by omega
          simp [charListLeB, this]
    · by_cases h1' : charValN b < charValN a
      · simp [charListLeB, h1, h1'] at hab
      · have habeq : charValN a = charValN b := by omega
        simp [charListLeB, h1, h1'] at hab
        by_cases h2 : charValN b < charValN c
        · have : charValN a < charValN c := by omega
          simp [charListLeB, this]
        · by_cases h3 : charValN c < charValN b
          · simp [charListLeB, h2, h3] at hbc
          · simp [charListLeB, h2, h3] at hbc
            have h4 : ¬ charValN a < charValN c := by omega
            have h5 : ¬ charValN c < charValN a := by omega
            simp [charListLeB, h4, h5]
            exact charListLeB_trans as bs cs hab hbc

theorem charValN_inj {a b : Char} (h : charValN a = charValN b) : a = b :=
  Char.ext (UInt32.ext h)

theorem charListLeB_antisymm : ∀ a b : List Char,
    charListLeB a b = true → charListLeB b a = true → a = b
  | [], [], _, _ => rfl
  | [], _ :: _, _, h => by simp [charListLeB] at h
  | _ :: _, [], h, _ => by simp [charListLeB] at h
  | a :: as, b :: bs, hab, hba => by
    by_cases h1 : charValN a < charValN b
    · simp [charListLeB, h1, Nat.lt_asymm h1] at hba
    · by_cases h2 : charValN b < charValN a
      · simp [charListLeB, h1, h2] at hab
      · have : charValN a = charValN b := by omega
        simp [charListLeB, h1, h2] at hab hba
        exact congrArg₂ (· :: ·) (charValN_inj this) (charListLeB_antisymm as bs hab hba)

/-- Python tuple comparison on a pair of strings, used as the sort key
`(received_at, message_sid)` in the Stage B merge step. -/
def pairLeB (p q : String × String) : Bool :=
  if p.1.data = q.1.data then charListLeB p.2.data q.2.data
  else charListLeB p.1.data q.1.data

theorem pairLeB_total (p q : String × String) :
    pairLeB p q = true ∨ pairLeB q p = true := by
  by_cases h : p.1.data = q.1.data
  · rcases charListLeB_total p.2.data q.2.data with h2 | h2
    · left; simp [pairLeB, h, h2]
    · right; simp [pairLeB, h.symm, h2]
  · have h' : ¬ q.1.data = p.1.data := fun hh => h hh.symm
    rcases charListLeB_total p.1.data q.1.data with h2 | h2
    · left; simp [pairLeB, h, h2]
    · right; simp [pairLeB, h', h2]

theorem pairLeB_trans {p q r : String × String}
    (hpq : pairLeB p q = true) (hqr : pairLeB q r = true) :
    pairLeB p r = true := by
  by_cases h1 : p.1.data = q.1.data
  · by_cases h2 : q.1.data = r.1.data
    · have h3 : p.1.data = r.1.data := h1.trans h2
      simp [pairLeB, h1] at hpq
      simp [pairLeB, h2] at hqr
      simp [pairLeB, h3]
      exact charListLeB_trans _ _ _ hpq hqr
    · have h3 : ¬ p.1.data = r.1.data := fun hh => h2 (h1.symm.trans hh)
      simp [pairLeB, h2] at hqr
      simp [pairLeB, h3]
      rw [h1]
      exact hqr
  · by_cases h2 : q.1.data = r.1.data
    · have h3 : ¬ p.1.data = r.1.data := fun hh => h1 (hh.trans h2.symm)
      simp [pairLeB, h1] at hpq
      simp [pairLeB, h3]
      rw [← h2]
      exact hpq
    · simp [pairLeB, h1] at hpq
      simp [pairLeB, h2] at hqr
      by_cases h3 : p.1.data = r.1.data
      · exfalso
        have : p.1.data = q.1.data :=
          charListLeB_antisymm _ _ hpq (by rw [← h3] at hqr; exact hqr)
        exact h1 this
      · simp [pairLeB, h3]
        exact charListLeB_trans _ _ _ hpq hqr

theorem pairLeB_antisymm {p q : String × String}
    (hpq : pairLeB p q = true) (hqp : pairLeB q p = true) : p = q := by
  by_cases h1 : p.1.data = q.1.data
  · simp [pairLeB, h1] at hpq
    simp [pairLeB, h1.symm] at hqp
    have h2 : p.2.data = q.2.data := charListLeB_antisymm _ _ hpq hqp
    have e1 : p.1 = q.1 := String.ext h1
    have e2 : p.2 = q.2 := String.ext h2
    exact Prod.ext e1 e2
  · have h1' : ¬ q.1.data = p.1.data := fun hh => h1 hh.symm
    simp [pairLeB, h1] at hpq
    simp [pairLeB, h1'] at hqp
    exact absurd (charListLeB_antisymm _ _ hpq hqp) h1

/-- One staged message fragment, as written to the staging table by
`write_to_stage_table`: key `(conversation_id, message_sid)` and the
attributes `primary_channel`, `body`, `received_at` (the optional
attributes are dropped when absent). -/
structure Fragment where
  conversation_id : String
  message_sid : String
  primary_channel : Option String
  body : Option String
  received_at : String
deriving DecidableEq

/-- Sort key used by the Stage B merge:
`(x.get('received_at', ' '), x.get('message_sid', ' '))`. -/
def fragSortKey (f : Fragment) : String × String := (f.received_at, f.message_sid)

/-- Comparison driving the merge sort of staged fragments. -/
def fragLeB (a b : Fragment) : Bool := pairLeB (fragSortKey a) (fragSortKey b)

/-- Stable insertion of one element into a list (helper of the stable
sort modelling Python `list.sort`). -/
def insertSorted (le : α → α → Bool) (a : α) : List α → List α
  | [] => [a]
  | b :: bs => if le a b then a :: b :: bs else b :: insertSorted le a bs

/-- Stable sort modelling Python `list.sort(key=...)`. -/
def sortByKey (le : α → α → Bool) : List α → List α
  | [] => []
  | a :: as => insertSorted le a (sortByKey le as)

theorem insertSorted_perm (le : α → α → Bool) (a : α) :
    ∀ l : List α, (insertSorted le a l).Perm (a :: l)
  | [] => List.Perm.refl _
  | b :: bs => by
    show (if le a b then a :: b :: bs else b :: insertSorted le a bs).Perm (a :: b :: bs)
    by_cases h : le a b
    · rw [if_pos h]
    · rw [if_neg h]
      exact (List.Perm.cons b (insertSorted_perm le a bs)).trans (List.Perm.swap a b bs)

theorem sortByKey_perm (le : α → α → Bool) :
    ∀ l : List α, (sortByKey le l).Perm l
  | [] => List.Perm.refl _
  | a :: as =>
    (insertSorted_perm le a (sortByKey le as)).trans
      (List.Perm.cons a (sortByKey_perm le as))

theorem mem_insertSorted {le : α → α → Bool} {a x : α} {l : List α}
    (h : x ∈ insertSorted le a l) : x = a ∨ x ∈ l :=
  List.mem_cons.mp ((insertSorted_perm le a l).mem_iff.mp h)

theorem insertSorted_pairwise {le : α → α → Bool}
    (htot : ∀ x y, le x y = false → le y x = true)
    (htrans : ∀ x y z, le x y = true → le y z = true → le x z = true)
    (a : α) :
    ∀ l : List α, l.Pairwise (fun x y => le x y = true) →
      (insertSorted le a l).Pairwise (fun x y => le x y = true)
  | [], _ => List.Pairwise.cons (by simp) List.Pairwise.nil
  | b :: bs, hp => by
    rcases List.pairwise_cons.mp hp with ⟨hb, hbs⟩
    show ((if le a b then a :: b :: bs else b :: insertSorted le a bs)).Pairwise
      (fun x y => le x y = true)
    by_cases h : le a b
    · rw [if_pos h]
      refine List.pairwise_cons.mpr ⟨?_, hp⟩
      intro x hx
      rcases List.mem_cons.mp hx with rfl | hx
      · exact h
      · exact htrans a b x h (hb x hx)
    · have hba : le b a = true := htot a b (by simpa using h)
      rw [if_neg h]
      refine List.pairwise_cons.mpr ⟨?_, insertSorted_pairwise htot htrans a bs hbs⟩
      intro x hx
      rcases mem_insertSorted hx with rfl | hx
      · exact hba
      · exact hb x hx

theorem sortByKey_pairwise {le : α → α → Bool}
    (htot : ∀ x y, le x y = false → le y x = true)
    (htrans : ∀ x y z, le x y = true → le y z = true → le x z = true) :
    ∀ l : List α, (sortByKey le l).Pairwise (fun x y => le x y = true)
  | [] => List.Pairwise.nil
  | a :: as =>
    insertSorted_pairwise htot htrans a (sortByKey le as)
      (sortByKey_pairwise htot htrans as)

/-- Stage B merge sort of the staged fragments
(`staged_items.sort(key=lambda x: (received_at, message_sid))`). -/
def sortFragments (items : List Fragment) : List Fragment :=
  sortByKey fragLeB items

/-- Combined user message: bodies of the sorted fragments joined with a
newline separator. -/
def combinedBody (items : List Fragment) : String :=
  String.intercalate "\n" ((sortFragments items).map (fun f => f.body.getD ""))

/-- Message sid of the tie-broken earliest fragment (head of the sorted
list), recorded as `first_message_sid`. -/
def firstMessageSid (items : List Fragment) : Option String :=
  ((sortFragments items).head?).map Fragment.message_sid

theorem fragLeB_total : ∀ x y : Fragment, fragLeB x y = false → fragLeB y x = true := by
  intro x y h
  rcases pairLeB_total (fragSortKey x) (fragSortKey y) with h' | h'
  · exact absurd h' (by simp [fragLeB] at h; simp [h])
  · exact h'

theorem fragLeB_trans : ∀ x y z : Fragment,
    fragLeB x y = true → fragLeB y z = true → fragLeB x z = true := by
  intro x y z hxy hyz
  exact pairLeB_trans hxy hyz

theorem sortFragments_sorted (items : List Fragment) :
    (sortFragments items).Pairwise (fun x y => fragLeB x y = true) :=
  sortByKey_pairwise fragLeB_total fragLeB_trans items

instance : IsAntisymm (String × String) (fun p q => pairLeB p q = true) :=
  ⟨fun _ _ hpq hqp => pairLeB_antisymm hpq hqp⟩

theorem eq_of_perm_of_map_eq :
    ∀ {l₁ l₂ : List Fragment}, l₁.Perm l₂ →
      l₁.map fragSortKey = l₂.map fragSortKey →
      (l₁.map fragSortKey).Nodup → l₁ = l₂
  | [], [], _, _, _ => rfl
  | [], _ :: _, hp, _, _ => absurd hp (by simp)
  | _ :: _, [], hp, _, _ => absurd hp (by simp)
  | a :: as, b :: bs, hp, hmap, hnd => by
    simp only [List.map_cons, List.cons.injEq] at hmap
    rcases hmap with ⟨hk, hmaps⟩
    have hab : a = b := by
      have hmem : a ∈ b :: bs := hp.mem_iff.mp (List.mem_cons_self a as)
      rcases List.mem_cons.mp hmem with hmem | hmem
      · exact hmem
      · exfalso
        have h1 : fragSortKey a ∈ bs.map fragSortKey := List.mem_map_of_mem fragSortKey hmem
        have h2 : fragSortKey a ∉ as.map fragSortKey := by
          rcases List.nodup_cons.mp hnd with ⟨hna, _⟩
          intro hcon
          exact hna hcon
        rw [← hmaps] at h1
        exact h2 h1
    subst hab
    have hperm' : as.Perm bs := hp.cons_inv
    have hnd' : (as.map fragSortKey).Nodup := (List.nodup_cons.mp hnd).2
    exact congrArg (a :: ·) (eq_of_perm_of_map_eq hperm' hmaps hnd')

theorem sortFragments_keys_nodup {l : List Fragment}
    (h : (l.map Fragment.message_sid).Nodup) :
    ((sortFragments l).map fragSortKey).Nodup := by
  have h1 : (l.map fragSortKey).Nodup := by
    have he : l.map Fragment.message_sid = (l.map fragSortKey).map Prod.snd := by
      rw [List.map_map]; rfl
    rw [he] at h
    exact List.Nodup.of_map Prod.snd h
  exact ((sortByKey_perm fragLeB l).map fragSortKey).symm.nodup h1

theorem sortFragments_perm_invariant {l₁ l₂ : List Fragment}
    (hperm : l₁.Perm l₂) (hnd : (l₁.map Fragment.message_sid).Nodup) :
    sortFragments l₁ = sortFragments l₂ := by
  have hp : (sortFragments l₁).Perm (sortFragments l₂) :=
    ((sortByKey_perm fragLeB l₁).trans hperm).trans (sortByKey_perm fragLeB l₂).symm
  have hs₁ : List.Sorted (fun p q => pairLeB p q = true)
      ((sortFragments l₁).map fragSortKey) :=
    (List.pairwise_map).mpr (sortFragments_sorted l₁)
  have hs₂ : List.Sorted (fun p q => pairLeB p q = true)
      ((sortFragments l₂).map fragSortKey) :=
    (List.pairwise_map).mpr (sortFragments_sorted l₂)
  have hmap : (sortFragments l₁).map fragSortKey = (sortFragments l₂).map fragSortKey :=
    List.eq_of_perm_of_sorted (hp.map fragSortKey) hs₁ hs₂
  exact eq_of_perm_of_map_eq hp hmap (sortFragments_keys_nodup hnd)

/-- One entry of the `message_history` list on the conversation row. -/
structure MessageMap where
  message_id : String
  timestamp : String
  role : String
  content : String
  prompt_tokens : Option Nat
  completion_tokens : Option Nat
  total_tokens : Option Nat
deriving DecidableEq

/-- Attribute map of one conversation row keyed by
`(primary_channel, conversation_id)` in the conversations table.  Every
field is optional because a DynamoDB item need not carry the attribute;
`hand_off_to_human_reason` distinguishes an absent attribute from an
attribute stored as NULL. -/
structure ConvRow where
  conversation_status : Option String
  updated_at : Option String
  message_history : Option (List MessageMap)
  openai_thread_id : Option String
  initial_processing_time_ms : Option Int
  task_complete : Option Int
  hand_off_to_human : Option Bool
  hand_off_to_human_reason : Option (Option String)
deriving DecidableEq

/-- Row carrying no attributes beyond its key. -/
def emptyConvRow : ConvRow :=
  { conversation_status := none
    updated_at := none
    message_history := none
    openai_thread_id := none
    initial_processing_time_ms := none
    task_complete := none
    hand_off_to_human := none
    hand_off_to_human_reason := none }

/-- Lock value `processing_reply` (module constant PROCESSING_STATUS). -/
def PROCESSING_STATUS : String := "processing_reply"

/-- Result of the final conditional update (module constants DB_SUCCESS,
DB_LOCK_LOST, DB_ERROR of the messaging DynamoDB service). -/
inductive UpdateOutcome where
  | success
  | lockLost
  | dbError
deriving DecidableEq

/-- Effect of the update expression built by
`update_conversation_after_reply` when its condition passes: status and
`updated_at` are always set, both message maps are appended through
`list_append(if_not_exists(message_history, []), [user, assistant])`,
and the remaining attributes are set only when the corresponding
argument was provided (the thread id only when truthy, mirroring
`if updated_openai_thread_id:`); a provided `hand_off_to_human = True`
with no reason stores an explicit NULL reason. -/
def apply_reply_update (r : ConvRow) (user_message_map assistant_message_map : MessageMap)
    (new_status ts : String) (processing_time_ms : Option Int) (task_complete : Option Int)
    (hand_off_to_human : Option Bool) (hand_off_to_human_reason : Option String)
    (updated_openai_thread_id : Option String) : ConvRow :=
  { r with
    conversation_status := some new_status
    updated_at := some ts
    message_history :=
      some ((r.message_history.getD []) ++ [user_message_map, assistant_message_map])
    openai_thread_id :=
      if optTruthy updated_openai_thread_id then updated_openai_thread_id
      else r.openai_thread_id
    initial_processing_time_ms :=
      match processing_time_ms with
      | some v => some v
      | none => r.initial_processing_time_ms
    task_complete :=
      match task_complete with
      | some v => some v
      | none => r.task_complete
    hand_off_to_human :=
      match hand_off_to_human with
      | some v => some v
      | none => r.hand_off_to_human
    hand_off_to_human_reason :=
      match hand_off_to_human_reason with
      | some reason => some (some reason)
      | none =>
        if hand_off_to_human = some true then some none
        else r.hand_off_to_human_reason }

/-- Embedding of `update_conversation_after_reply` acting on the row
stored under `(primary_channel_pk, conversation_id_sk)`.  The `fault`
flag injects a DynamoDB failure other than the conditional check
(ClientError or unexpected exception), which leaves the row unchanged.
Without a fault, DynamoDB raises ConditionalCheckFailedException - and
the function returns LOCK_LOST - exactly when the row is absent or the
condition `conversation_status = "processing_reply"` does not hold. -/
def update_conversation_after_reply (row : Option ConvRow) (fault : Bool)
    (user_message_map assistant_message_map : MessageMap)
    (new_status ts : String) (processing_time_ms : Option Int) (task_complete : Option Int)
    (hand_off_to_human : Option Bool) (hand_off_to_human_reason : Option String)
    (updated_openai_thread_id : Option String) : UpdateOutcome × Option ConvRow :=
  if fault then (UpdateOutcome.dbError, row)
  else
    match row with
    | none => (UpdateOutcome.lockLost, none)
    | some r =>
      if r.conversation_status = some PROCESSING_STATUS then
        (UpdateOutcome.success,
          some (apply_reply_update r user_message_map assistant_message_map new_status ts
            processing_time_ms task_complete hand_off_to_human hand_off_to_human_reason
            updated_openai_thread_id))
      else (UpdateOutcome.lockLost, some r)

/-- Embedding of `acquire_processing_lock`: a conditional update with
condition `attribute_not_exists(conversation_status) OR
conversation_status <> "processing_reply"`, setting
`conversation_status := "processing_reply"`.  When the row is absent the
condition passes and DynamoDB creates a row holding only the key
attributes plus the set attribute. -/
def acquire_processing_lock (row : Option ConvRow) (fault : Bool) : String × Option ConvRow :=
  if fault then ("DB_ERROR", row)
  else
    match row with
    | none =>
      ("ACQUIRED", some { emptyConvRow with conversation_status := some PROCESSING_STATUS })
    | some r =>
      if r.conversation_status = some PROCESSING_STATUS then ("EXISTS", some r)
      else ("ACQUIRED", some { r with conversation_status := some PROCESSING_STATUS })

/-- Embedding of `release_lock_for_retry`: an unconditional update
setting `conversation_status := "retry"` and `updated_at`. -/
def release_lock_for_retry (row : Option ConvRow) (ts : String) : Option ConvRow :=
  match row with
  | none => some { emptyConvRow with conversation_status := some "retry", updated_at := some ts }
  | some r => some { r with conversation_status := some "retry", updated_at := some ts }

/-- Embedding of `acquire_trigger_lock` on the trigger-lock table slot
of one conversation: a `put_item` guarded by
`attribute_not_exists(conversation_id)`.  The slot holds the TTL value
`expires_at` of the stored item.  `fault` carries the mapped status code
of a DynamoDB failure other than the conditional check. -/
def acquire_trigger_lock (slot : Option Nat) (now w buffer : Nat)
    (fault : Option String) : String × Option Nat :=
  match fault with
  | some code => (code, slot)
  | none =>
    match slot with
    | none => ("ACQUIRED", some (now + w + buffer))
    | some e => ("EXISTS", some e)

/-- Channel marker stripping used by both the GSI credential lookup and
the SQS trigger-message builder: drop a leading `"<channel>:"` from a
non-empty identifier that carries it, keep the identifier otherwise. -/
def dropChannelTag (channel_type s : String) : String :=
  let tag := channel_type ++ ":"
  if !s.isEmpty && tag.data.isPrefixOf s.data then
    String.mk (s.data.drop tag.data.length)
  else s

/-- GSI index names of `GSI_CONFIG` per channel. -/
def gsi_index_for : String → Option String
  | "whatsapp" => some "company-whatsapp-number-recipient-tel-index"
  | "sms" => some "company-sms-number-recipient-tel-index"
  | "email" => some "company-email-recipient-email-index"
  | _ => none

/-- Key pair issued to the channel GSI. -/
structure GsiQueryKeys where
  index_name : String
  gsi_pk : String
  gsi_sk : String
deriving DecidableEq

/-- Embedding of the query-construction part of
`get_credential_ref_for_validation`: the company identifier `to_id`
becomes the GSI partition key and the user identifier `from_id` the GSI
sort key, both stripped of the `"<channel>:"` marker on the telephony
channels; an unsupported channel issues no query. -/
def credential_lookup_keys (channel_type from_id to_id : String) : Option GsiQueryKeys :=
  match gsi_index_for channel_type with
  | none => none
  | some index_name =>
    let gsi_pk_value := to_id
    let gsi_sk_value := from_id
    if channel_type = "whatsapp" ∨ channel_type = "sms" then
      some { index_name := index_name
             gsi_pk := dropChannelTag channel_type gsi_pk_value
             gsi_sk := dropChannelTag channel_type gsi_sk_value }
    else
      some { index_name := index_name, gsi_pk := gsi_pk_value, gsi_sk := gsi_sk_value }

/-- Minimal trigger message sent to a channel queue. -/
structure TriggerMessage where
  conversation_id : String
  primary_channel : String
deriving DecidableEq

/-- Embedding of the channel-queue branch of `send_message_to_queue`:
the message body `{conversation_id, primary_channel}` where
`primary_channel` is the sender identifier with the channel marker
stripped when present (full value kept otherwise); `none` models the
INTERNAL_ERROR return when no primary channel can be determined. -/
def trigger_message_body (channel_type : String) (from_id from_address : Option String)
    (conversation_id : String) : Option TriggerMessage :=
  let primary_channel : Option String :=
    if (channel_type = "whatsapp" ∨ channel_type = "sms") ∧ optTruthy from_id then
      some (dropChannelTag channel_type (from_id.getD ""))
    else if channel_type = "email" ∧ optTruthy from_address then from_address
    else none
  match primary_channel with
  | none => none
  | some p => if p.isEmpty then none else some ⟨conversation_id, p⟩

/-- Subset of the hydrated conversation item read by the Stage B
handler after `get_conversation_item`. -/
structure ConvData where
  thread_id : Option String
  api_key_reference : Option String
  assistant_id_replies : Option String
  whatsapp_credentials_id : Option String
  company_whatsapp_number : Option String
  hand_off_to_human : Bool
  hand_off_to_human_reason : Option String
  task_complete : Int
deriving DecidableEq

/-- Outcome of one Secrets Manager fetch as classified by
`get_secret`. -/
inductive SecretResult (α : Type) where
  | ok (payload : α)
  | transientErr
  | permanentErr
deriving DecidableEq

/-- Payload of the OpenAI secret. -/
structure OpenAISecret where
  ai_api_key : Option String
deriving DecidableEq

/-- Payload of the Twilio secret; the handler only checks key
presence. -/
structure TwilioSecret where
  twilio_account_sid : Option String
  twilio_auth_token : Option String
deriving DecidableEq

/-- Outcome of `process_reply_with_ai` as seen by the handler. -/
inductive AiOutcome where
  | ok (response_content : String) (prompt_tokens completion_tokens total_tokens : Nat)
  | transientErr
  | nonTransientErr
deriving DecidableEq

/-- Outcome of `send_whatsapp_reply` as seen by the handler. -/
inductive TwilioOutcome where
  | ok (message_sid : String) (body : String)
  | transientErr
  | nonTransientErr
deriving DecidableEq

/-- Environment of one Stage B record: the parsed trigger message, and
the outcome each external call would produce if reached. -/
structure RecordEnv where
  bodyPresent : Bool
  bodyParses : Bool
  sqs_conversation_id : Option String
  sqs_primary_channel : Option String
  lock_status : String
  hasReceiptHandle : Bool
  hbStartOk : Bool
  hbRunningAtStop : Bool
  hbErrorReported : Bool
  staging_query : Option (List Fragment)
  conversation_item : Option ConvData
  openai_secret : SecretResult OpenAISecret
  twilio_secret : SecretResult TwilioSecret
  ai_outcome : AiOutcome
  ai_parsed_content : Option String
  twilio_outcome : TwilioOutcome
  commit_outcome : UpdateOutcome
  cleanup_staging_ok : Bool
  cleanup_lock_ok : Bool

/-- State of one record when control reaches the `finally` block:
whether the record was appended to `batch_item_failures`, whether the
processing lock was acquired, whether the heartbeat was started, and
whether the Twilio send and the final commit succeeded. -/
structure MidState where
  failedMid : Bool
  lockAcquired : Bool
  hbStarted : Bool
  sent : Bool
  committed : Bool
deriving DecidableEq

/-- MidState of a record failed before the lock step. -/
def midFail : MidState :=
  { failedMid := true, lockAcquired := false, hbStarted := false, sent := false
    committed := false }

/-- MidState of a record acknowledged before the lock step. -/
def midAck : MidState :=
  { failedMid := false, lockAcquired := false, hbStarted := false, sent := false
    committed := false }

/-- MidState of a record failed after the lock was acquired. -/
def midFailLocked (hb : Bool) : MidState :=
  { failedMid := true, lockAcquired := true, hbStarted := hb, sent := false
    committed := false }

/-- Steps 10-12 of the Stage B handler: Twilio input validation, the
Twilio send, and the final conditional update.  A failure after the
send succeeded (commit LOCK_LOST or DB error) acknowledges the record:
it is not marked failed. -/
def stageBSend (env : RecordEnv) (hb : Bool) (conv : ConvData) (tsec : TwilioSecret)
    (response_content : String) : MidState :=
  if tsec.twilio_account_sid.isNone || tsec.twilio_auth_token.isNone then midFailLocked hb
  else if !(optTruthy conv.company_whatsapp_number) then midFailLocked hb
  else if !(optTruthy
      (if !response_content.isEmpty then env.ai_parsed_content else none)) then
    midFailLocked hb
  else
    match env.twilio_outcome with
    | TwilioOutcome.transientErr => midFailLocked hb
    | TwilioOutcome.nonTransientErr => midFailLocked hb
    | TwilioOutcome.ok _ _ =>
      match env.commit_outcome with
      | UpdateOutcome.success =>
        { failedMid := false, lockAcquired := true, hbStarted := hb
          sent := true, committed := true }
      | UpdateOutcome.lockLost =>
        { failedMid := false, lockAcquired := true, hbStarted := hb
          sent := true, committed := false }
      | UpdateOutcome.dbError =>
        { failedMid := false, lockAcquired := true, hbStarted := hb
          sent := true, committed := false }

/-- Step 9 of the Stage B handler: AI input validation and the OpenAI
call. -/
def stageBAi (env : RecordEnv) (hb : Bool) (conv : ConvData) (osec : OpenAISecret)
    (tsec : TwilioSecret) (combined_body : String) : MidState :=
  if !(optTruthy conv.thread_id) then midFailLocked hb
  else if !(optTruthy conv.assistant_id_replies) then midFailLocked hb
  else if combined_body.isEmpty then midFailLocked hb
  else if !(optTruthy osec.ai_api_key) then midFailLocked hb
  else
    match env.ai_outcome with
    | AiOutcome.transientErr => midFailLocked hb
    | AiOutcome.nonTransientErr => midFailLocked hb
    | AiOutcome.ok response_content _ _ _ => stageBSend env hb conv tsec response_content

/-- Step 8 of the Stage B handler: secret-reference extraction and the
two Secrets Manager fetches (transient errors raise, and the raise is
caught and marks the record failed, so both error kinds fail). -/
def stageBSecrets (env : RecordEnv) (hb : Bool) (conv : ConvData)
    (combined_body : String) : MidState :=
  if !(optTruthy conv.api_key_reference) then midFailLocked hb
  else
    match env.openai_secret with
    | SecretResult.transientErr => midFailLocked hb
    | SecretResult.permanentErr => midFailLocked hb
    | SecretResult.ok osec =>
      if !(optTruthy conv.whatsapp_credentials_id) then midFailLocked hb
      else
        match env.twilio_secret with
        | SecretResult.transientErr => midFailLocked hb
        | SecretResult.permanentErr => midFailLocked hb
        | SecretResult.ok tsec => stageBAi env hb conv osec tsec combined_body

/-- Steps 3-7 of the Stage B handler, run after the processing lock was
acquired: staging query, empty-batch acknowledgment, sort and merge,
consistency checks, and conversation hydration. -/
def stageBLocked (env : RecordEnv) (hb : Bool) : MidState :=
  match env.staging_query with
  | none => midFailLocked hb
  | some items =>
    if items.isEmpty then
      { failedMid := false, lockAcquired := true, hbStarted := hb, sent := false
        committed := false }
    else
      match sortFragments items with
      | [] => midFailLocked hb
      | first :: restSorted =>
        if first.primary_channel ≠ some (env.sqs_primary_channel.getD "") then
          midFailLocked hb
        else if first.message_sid.isEmpty then midFailLocked hb
        else
          match env.conversation_item with
          | none => midFailLocked hb
          | some conv =>
            stageBSecrets env hb conv
              (String.intercalate "\n" ((first :: restSorted).map (fun f => f.body.getD "")))

/-- Body of the per-record `try` block of the Stage B handler
(`index.py` of the messaging lambda): trigger parsing, processing-lock
acquisition, heartbeat start, then the locked stages.  Transient errors
are raised and caught by the per-record handler, which also appends the
record to the failure list, so raising and failing coincide in the
final state. -/
def runMid (env : RecordEnv) : MidState :=
  if !env.bodyPresent then midFail
  else if !env.bodyParses then midFail
  else if !(optTruthy env.sqs_conversation_id) || !(optTruthy env.sqs_primary_channel) then
    midFail
  else if env.lock_status = "EXISTS" then midAck
  else if env.lock_status = "DB_ERROR" then midFail
  else if env.lock_status ≠ "ACQUIRED" then midFail
  else stageBLocked env (env.hasReceiptHandle && env.hbStartOk)

/-- Observable result of one Stage B record. -/
structure RecordResult where
  failed : Bool
  releasedRetry : Bool
  lockAcquired : Bool
  sent : Bool
  committed : Bool
  lastStatusWrite : Option String
deriving DecidableEq

/-- The `finally` block of the Stage B handler: stop the heartbeat when
it is still running and fail the record if it reported an error; then
call `release_lock_for_retry` exactly when the lock was acquired and
the record is marked failed.  `lastStatusWrite` records the last value
written to `conversation_status` by this record. -/
def finalizeRecord (env : RecordEnv) (m : MidState) : RecordResult :=
  let hbErrDetected := m.hbStarted && env.hbRunningAtStop && env.hbErrorReported
  let failed := m.failedMid || hbErrDetected
  let released := m.lockAcquired && failed
  { failed := failed
    releasedRetry := released
    lockAcquired := m.lockAcquired
    sent := m.sent
    committed := m.committed
    lastStatusWrite :=
      if released then some "retry"
      else if m.committed then some "reply_sent"
      else if m.lockAcquired then some PROCESSING_STATUS
      else none }

/-- Processing of one Stage B record end to end. -/
def processRecord (env : RecordEnv) : RecordResult :=
  finalizeRecord env (runMid env)

/-- Body of an HTTP response produced by the response builder.  TwiML
bodies are represented structurally: an empty Response element, or a
Response wrapping one Message element. -/
inductive RespBody where
  | twimlEmpty
  | twimlMessage (text : String)
  | jsonSuccess (message : String)
  | jsonError (error_code : String) (message : String)
deriving DecidableEq

/-- API Gateway proxy response. -/
structure HttpResponse where
  statusCode : Nat
  contentType : String
  body : RespBody
deriving DecidableEq

/-- Embedding of `create_success_response_twiml` with its default body
(the empty Response element). -/
def create_success_response_twiml : HttpResponse :=
  { statusCode := 200, contentType := "text/xml", body := RespBody.twimlEmpty }

/-- Embedding of `create_twiml_error_response`: HTTP 200 with a Message
element so that the provider does not retry. -/
def create_twiml_error_response (message : String) : HttpResponse :=
  { statusCode := 200, contentType := "text/xml", body := RespBody.twimlMessage message }

/-- Embedding of `create_success_response_json`. -/
def create_success_response_json (message : String) : HttpResponse :=
  { statusCode := 200, contentType := "application/json"
    body := RespBody.jsonSuccess message }

/-- Status-code mapping of `create_error_response`. -/
def error_status_code : String → Nat
  | "INVALID_INPUT" => 400
  | "MISSING_REQUIRED_FIELD" => 400
  | "UNKNOWN_CHANNEL" => 400
  | "PARSING_ERROR" => 400
  | "CONVERSATION_NOT_FOUND" => 404
  | "PROJECT_INACTIVE" => 403
  | "CHANNEL_NOT_ALLOWED" => 403
  | "CONVERSATION_LOCKED" => 409
  | "VALIDATION_FAILED" => 400
  | "DB_QUERY_ERROR" => 500
  | "DB_TRANSIENT_ERROR" => 503
  | "QUEUE_ERROR" => 500
  | "INTERNAL_ERROR" => 500
  | "CONFIGURATION_ERROR" => 500
  | _ => 500

/-- Embedding of `create_error_response`. -/
def create_error_response (error_code error_message : String) : HttpResponse :=
  { statusCode := error_status_code error_code, contentType := "application/json"
    body := RespBody.jsonError error_code error_message }

/-- Message of the CONVERSATION_LOCKED TwiML response (punctuation of
the source text elided). -/
def conversation_locked_message : String :=
  "I am processing your previous message. Please wait for my response before sending more."

/-- Transport decision of Stage A: either an HTTP response is returned,
or an exception escapes so that API Gateway serves HTTP 5xx and the
provider retries. -/
inductive StageAOutcome where
  | respond (r : HttpResponse)
  | raised (error_code : String)
deriving DecidableEq

/-- Whitelist TRANSIENT_ERROR_CODES of the staging lambda. -/
def TRANSIENT_ERROR_CODES : List String :=
  ["DB_TRANSIENT_ERROR", "STAGE_DB_TRANSIENT_ERROR", "TRIGGER_DB_TRANSIENT_ERROR",
   "SQS_TRANSIENT_ERROR", "SECRET_FETCH_TRANSIENT_ERROR"]

/-- Embedding of `_determine_final_error_response` of the staging
lambda: on the telephony channels a transient code raises (HTTP 5xx via
API Gateway), CONVERSATION_LOCKED returns the specific TwiML message,
every other code - INVALID_SIGNATURE explicitly among them - returns
the empty 200 TwiML; other channels receive the standard error
response. -/
def determine_final_error_response (channel_type error_code error_message : String) :
    StageAOutcome :=
  if channel_type = "whatsapp" ∨ channel_type = "sms" then
    if error_code ∈ TRANSIENT_ERROR_CODES then StageAOutcome.raised error_code
    else if error_code = "CONVERSATION_LOCKED" then
      StageAOutcome.respond (create_twiml_error_response conversation_locked_message)
    else if error_code = "INVALID_SIGNATURE" then
      StageAOutcome.respond create_success_response_twiml
    else StageAOutcome.respond create_success_response_twiml
  else StageAOutcome.respond (create_error_response error_code error_message)

/-- Success acknowledgment of Stage A per channel. -/
def success_ack (channel_type : String) : StageAOutcome :=
  if channel_type = "whatsapp" ∨ channel_type = "sms" then
    StageAOutcome.respond create_success_response_twiml
  else StageAOutcome.respond (create_success_response_json "received")

/-- Routing decision of `determine_target_queue`: the handoff queue,
a channel batch queue, or no queue (falsy URL). -/
inductive RouteDecision where
  | handoffQueue
  | channelQueue
  | noQueue
deriving DecidableEq

/-- Externally visible side-effecting calls of Stage A, in program
order. -/
inductive AEvent where
  | credLookup
  | secretFetch
  | sigValidate
  | fullConvFetch
  | stageWrite
  | acquireTrigger
  | enqueueHandoff
  | enqueueChannel
deriving DecidableEq

/-- Environment of one Stage A invocation: what the parser extracted
and the outcome each external call would produce if reached. -/
structure StageAEnv where
  parseOk : Bool
  channel_type : Option String
  from_id : Option String
  to_id : Option String
  signature_header : Option String
  request_url_ok : Bool
  cred_lookup_status : String
  secret_token : Option String
  signature_valid : Bool
  full_conv_status : String
  rules_valid : Bool
  rules_error_code : String
  route : RouteDecision
  stage_write_status : String
  trigger_lock_status : String
  sqs_send_status : String

/-- Result of one Stage A invocation: the ordered trace of external
calls it performed and its transport outcome. -/
structure StageAResult where
  events : List AEvent
  outcome : StageAOutcome
deriving DecidableEq

/-- Post-validation part of the staging-lambda `handler`: the steps
reached only after the Twilio signature verified - full conversation
fetch, rule validation, routing, staging write, trigger-lock
acquisition, SQS enqueue and acknowledgment. -/
def stageAValidated (env : StageAEnv) : StageAResult :=
  if (if ((env.channel_type.getD "") = "whatsapp" ∨ (env.channel_type.getD "") = "sms") ∧ optTruthy env.from_id then
        dropChannelTag (env.channel_type.getD "") (env.from_id.getD "")
      else env.from_id.getD "").isEmpty then
    ⟨[AEvent.credLookup, AEvent.secretFetch, AEvent.sigValidate],
      determine_final_error_response (env.channel_type.getD "") "INTERNAL_ERROR"
        "Cannot determine primary key for context lookup"⟩
  else if env.full_conv_status ≠ "FOUND" then
    ⟨[AEvent.credLookup, AEvent.secretFetch, AEvent.sigValidate, AEvent.fullConvFetch],
      determine_final_error_response (env.channel_type.getD "") env.full_conv_status
        "Failed to retrieve full conversation context"⟩
  else if !env.rules_valid then
    ⟨[AEvent.credLookup, AEvent.secretFetch, AEvent.sigValidate, AEvent.fullConvFetch],
      determine_final_error_response (env.channel_type.getD "") env.rules_error_code "Rule validation failed"⟩
  else
    match env.route with
    | RouteDecision.noQueue =>
      ⟨[AEvent.credLookup, AEvent.secretFetch, AEvent.sigValidate, AEvent.fullConvFetch],
        determine_final_error_response (env.channel_type.getD "") "ROUTING_ERROR" "Could not determine routing queue"⟩
    | RouteDecision.handoffQueue =>
      if env.stage_write_status ≠ "SUCCESS" then
        ⟨[AEvent.credLookup, AEvent.secretFetch, AEvent.sigValidate, AEvent.fullConvFetch,
          AEvent.stageWrite],
          determine_final_error_response (env.channel_type.getD "") env.stage_write_status
            "Failed to stage message details"⟩
      else if env.sqs_send_status ≠ "SUCCESS" then
        ⟨[AEvent.credLookup, AEvent.secretFetch, AEvent.sigValidate, AEvent.fullConvFetch,
          AEvent.stageWrite, AEvent.enqueueHandoff],
          determine_final_error_response (env.channel_type.getD "") env.sqs_send_status "Failed to queue message"⟩
      else
        ⟨[AEvent.credLookup, AEvent.secretFetch, AEvent.sigValidate, AEvent.fullConvFetch,
          AEvent.stageWrite, AEvent.enqueueHandoff], success_ack (env.channel_type.getD "")⟩
    | RouteDecision.channelQueue =>
      if env.stage_write_status ≠ "SUCCESS" then
        ⟨[AEvent.credLookup, AEvent.secretFetch, AEvent.sigValidate, AEvent.fullConvFetch,
          AEvent.stageWrite],
          determine_final_error_response (env.channel_type.getD "") env.stage_write_status
            "Failed to stage message details"⟩
      else if env.trigger_lock_status = "ACQUIRED" then
        if env.sqs_send_status ≠ "SUCCESS" then
          ⟨[AEvent.credLookup, AEvent.secretFetch, AEvent.sigValidate, AEvent.fullConvFetch,
            AEvent.stageWrite, AEvent.acquireTrigger, AEvent.enqueueChannel],
            determine_final_error_response (env.channel_type.getD "") env.sqs_send_status "Failed to queue message"⟩
        else
          ⟨[AEvent.credLookup, AEvent.secretFetch, AEvent.sigValidate, AEvent.fullConvFetch,
            AEvent.stageWrite, AEvent.acquireTrigger, AEvent.enqueueChannel], success_ack (env.channel_type.getD "")⟩
      else if env.trigger_lock_status = "EXISTS" then
        ⟨[AEvent.credLookup, AEvent.secretFetch, AEvent.sigValidate, AEvent.fullConvFetch,
          AEvent.stageWrite, AEvent.acquireTrigger], success_ack (env.channel_type.getD "")⟩
      else
        ⟨[AEvent.credLookup, AEvent.secretFetch, AEvent.sigValidate, AEvent.fullConvFetch,
          AEvent.stageWrite, AEvent.acquireTrigger],
          determine_final_error_response (env.channel_type.getD "") env.trigger_lock_status
            "Failed to check/acquire trigger lock"⟩


/-- Embedding of the staging-lambda `handler` (late-validation flow):
parse, credential lookup via the GSI, secret fetch, signature
validation, full conversation fetch, rule validation, routing, staging
write, trigger-lock acquisition, SQS enqueue, acknowledgment. -/
def stageA (env : StageAEnv) : StageAResult :=
  if !env.parseOk then
    ⟨[], determine_final_error_response (env.channel_type.getD "unknown") "PARSING_ERROR"
      "Failed to parse incoming request."⟩
  else
    if !(optTruthy env.channel_type) || !(optTruthy env.from_id) || !(optTruthy env.to_id) then
      ⟨[], determine_final_error_response (env.channel_type.getD "unknown") "PARSING_ERROR"
        "Missing essential identifiers."⟩
    else if env.cred_lookup_status ≠ "FOUND" then
      ⟨[AEvent.credLookup],
        determine_final_error_response (env.channel_type.getD "") env.cred_lookup_status "Credential lookup failed"⟩
    else if !(optTruthy env.secret_token) then
      ⟨[AEvent.credLookup, AEvent.secretFetch],
        determine_final_error_response (env.channel_type.getD "") "SECRET_FETCH_FAILED"
          "Failed to retrieve necessary credentials"⟩
    else if !(optTruthy env.signature_header) then
      ⟨[AEvent.credLookup, AEvent.secretFetch],
        determine_final_error_response (env.channel_type.getD "") "INVALID_SIGNATURE"
          "Missing required signature header"⟩
    else if !env.request_url_ok then
      ⟨[AEvent.credLookup, AEvent.secretFetch],
        determine_final_error_response (env.channel_type.getD "") "INTERNAL_ERROR"
          "Parsing failed to provide validation components"⟩
    else if !env.signature_valid then
      ⟨[AEvent.credLookup, AEvent.secretFetch, AEvent.sigValidate],
        determine_final_error_response (env.channel_type.getD "") "INVALID_SIGNATURE" "Invalid Twilio Signature"⟩
    else stageAValidated env

/-- AI status constants of the OpenAI service module. -/
def AI_TRANSIENT_ERROR : String := "TRANSIENT_ERROR"

/-- Non-transient AI status constant. -/
def AI_NON_TRANSIENT_ERROR : String := "NON_TRANSIENT_ERROR"

/-- Hardcoded polling timeout of `process_reply_with_ai` (seconds). -/
def polling_timeout_seconds : Nat := 540

/-- Hardcoded polling interval of `process_reply_with_ai` (seconds),
slept between consecutive status retrievals. -/
def polling_interval_seconds : Nat := 1

/-- One iteration of the polling loop: the elapsed wall time measured
at the top of the iteration, and the run status
`client.beta.threads.runs.retrieve` would return in it. -/
structure PollObs where
  elapsed : Nat
  status : String
deriving DecidableEq

/-- Exit of the polling loop of `process_reply_with_ai`. -/
inductive PollResult where
  | transientTimeout
  | completed
  | nonTransientTerminal (status : String)
  | nonTransientActionRequired
  | ranOut
deriving DecidableEq

/-- The polling loop of `process_reply_with_ai`, driven by the sequence
of observations it would make: the timeout check precedes the status
retrieval, `completed` exits into the success path, the terminal
statuses and `requires_action` exit with a non-transient error, any
other status sleeps `polling_interval_seconds` and polls again.
`ranOut` marks exhaustion of the observation fuel. -/
def poll_run_status : List PollObs → PollResult
  | [] => PollResult.ranOut
  | o :: rest =>
    if o.elapsed > polling_timeout_seconds then PollResult.transientTimeout
    else if o.status = "completed" then PollResult.completed
    else if o.status = "failed" ∨ o.status = "cancelled" ∨ o.status = "expired" then
      PollResult.nonTransientTerminal o.status
    else if o.status = "requires_action" then PollResult.nonTransientActionRequired
    else poll_run_status rest

/-- Whether the loop exit attempts to cancel the outstanding run (only
the timeout branch does). -/
def poll_cancel_attempted : PollResult → Bool
  | PollResult.transientTimeout => true
  | _ => false

/-- AI status string produced by a loop exit (`none` when the loop
continues into the success path or ran out of fuel). -/
def poll_exit_status : PollResult → Option String
  | PollResult.transientTimeout => some AI_TRANSIENT_ERROR
  | PollResult.completed => none
  | PollResult.nonTransientTerminal _ => some AI_NON_TRANSIENT_ERROR
  | PollResult.nonTransientActionRequired => some AI_NON_TRANSIENT_ERROR
  | PollResult.ranOut => none

/-- Exception classes caught by `process_reply_with_ai`, in the order
of its handlers. -/
inductive OpenAIErr where
  | rateLimit
  | apiConnection
  | timeoutErr
  | internalServer
  | authentication
  | permissionDenied
  | notFound
  | badRequest
  | unprocessableEntity
  | otherApi
  | unexpected
deriving DecidableEq

/-- Exception classification of `process_reply_with_ai`: rate limit,
connection, timeout and server-side errors are transient; auth,
permission, not-found, bad-request, unprocessable, other API errors and
unexpected errors are non-transient. -/
def classify_openai_error : OpenAIErr → String
  | OpenAIErr.rateLimit => AI_TRANSIENT_ERROR
  | OpenAIErr.apiConnection => AI_TRANSIENT_ERROR
  | OpenAIErr.timeoutErr => AI_TRANSIENT_ERROR
  | OpenAIErr.internalServer => AI_TRANSIENT_ERROR
  | OpenAIErr.authentication => AI_NON_TRANSIENT_ERROR
  | OpenAIErr.permissionDenied => AI_NON_TRANSIENT_ERROR
  | OpenAIErr.notFound => AI_NON_TRANSIENT_ERROR
  | OpenAIErr.badRequest => AI_NON_TRANSIENT_ERROR
  | OpenAIErr.unprocessableEntity => AI_NON_TRANSIENT_ERROR
  | OpenAIErr.otherApi => AI_NON_TRANSIENT_ERROR
  | OpenAIErr.unexpected => AI_NON_TRANSIENT_ERROR

/-- C10: when no conversation row exists for the key,
`acquire_processing_lock` still returns ACQUIRED - the condition
`attribute_not_exists(conversation_status)` passes - and the update
creates a row carrying only the key attributes plus
`conversation_status = "processing_reply"`; in general the operation
returns ACQUIRED exactly when no row with `conversation_status =
"processing_reply"` is present, so it never verifies that the
conversation exists before locking it. -/
theorem acquire_processing_lock_creates_row :
    acquire_processing_lock none false =
      ("ACQUIRED", some
        { conversation_status := some PROCESSING_STATUS
          updated_at := none
          message_history := none
          openai_thread_id := none
          initial_processing_time_ms := none
          task_complete := none
          hand_off_to_human := none
          hand_off_to_human_reason := none })
    ∧ (∀ row : Option ConvRow,
        (acquire_processing_lock row false).fst = "ACQUIRED" ↔
          ¬ ∃ r, row = some r ∧ r.conversation_status = some PROCESSING_STATUS) := by
  constructor
  · rfl
  · intro row
    match row with
    | none =>
      simp [acquire_processing_lock]
    | some r =>
      by_cases h : r.conversation_status = some PROCESSING_STATUS
      · simp [acquire_processing_lock, h]
      · simp [acquire_processing_lock, h]

/-- C1: `update_conversation_after_reply` is a single conditional
update on the row keyed by `(primary_channel, conversation_id)`,
guarded by `conversation_status = "processing_reply"`.  It returns
SUCCESS exactly when the condition holds, LOCK_LOST exactly when the
conditional check fails, a DB error otherwise, and leaves the row
unchanged in both failing cases.  On success it appends exactly the
two-element list `[user, assistant]` to `message_history` through
`list_append` over `if_not_exists`, sets `updated_at` and
`conversation_status := new_status`, and sets
`initial_processing_time_ms`, `task_complete`, `hand_off_to_human`,
`hand_off_to_human_reason` and the thread id only when provided. -/
theorem commit_reply_conditional_update_spec
    (row : Option ConvRow) (fault : Bool) (u a : MessageMap) (st ts : String)
    (ptms : Option Int) (tc : Option Int) (hand : Option Bool) (reason : Option String)
    (tid : Option String) :
    (fault = true →
      update_conversation_after_reply row fault u a st ts ptms tc hand reason tid =
        (UpdateOutcome.dbError, row))
    ∧ (fault = false →
        ((update_conversation_after_reply row fault u a st ts ptms tc hand reason tid).fst =
            UpdateOutcome.success ↔
          ∃ r, row = some r ∧ r.conversation_status = some PROCESSING_STATUS))
    ∧ (fault = false →
        ((update_conversation_after_reply row fault u a st ts ptms tc hand reason tid).fst =
            UpdateOutcome.lockLost ↔
          ¬ ∃ r, row = some r ∧ r.conversation_status = some PROCESSING_STATUS))
    ∧ ((update_conversation_after_reply row fault u a st ts ptms tc hand reason tid).fst ≠
          UpdateOutcome.success →
        (update_conversation_after_reply row fault u a st ts ptms tc hand reason tid).snd = row)
    ∧ (∀ r, fault = false → row = some r → r.conversation_status = some PROCESSING_STATUS →
        update_conversation_after_reply row fault u a st ts ptms tc hand reason tid =
          (UpdateOutcome.success, some (apply_reply_update r u a st ts ptms tc hand reason tid))
        ∧ (apply_reply_update r u a st ts ptms tc hand reason tid).message_history =
            some (r.message_history.getD [] ++ [u, a])
        ∧ (apply_reply_update r u a st ts ptms tc hand reason tid).conversation_status = some st
        ∧ (apply_reply_update r u a st ts ptms tc hand reason tid).updated_at = some ts
        ∧ (optTruthy tid = true →
            (apply_reply_update r u a st ts ptms tc hand reason tid).openai_thread_id = tid)
        ∧ (optTruthy tid = false →
            (apply_reply_update r u a st ts ptms tc hand reason tid).openai_thread_id =
              r.openai_thread_id)
        ∧ (ptms ≠ none →
            (apply_reply_update r u a st ts ptms tc hand reason tid).initial_processing_time_ms =
              ptms)
        ∧ (ptms = none →
            (apply_reply_update r u a st ts ptms tc hand reason tid).initial_processing_time_ms =
              r.initial_processing_time_ms)
        ∧ (tc ≠ none →
            (apply_reply_update r u a st ts ptms tc hand reason tid).task_complete = tc)
        ∧ (tc = none →
            (apply_reply_update r u a st ts ptms tc hand reason tid).task_complete =
              r.task_complete)
        ∧ (hand ≠ none →
            (apply_reply_update r u a st ts ptms tc hand reason tid).hand_off_to_human = hand)
        ∧ (hand = none →
            (apply_reply_update r u a st ts ptms tc hand reason tid).hand_off_to_human =
              r.hand_off_to_human)
        ∧ (∀ s, reason = some s →
            (apply_reply_update r u a st ts ptms tc hand reason tid).hand_off_to_human_reason =
              some (some s))
        ∧ (reason = none → hand = some true →
            (apply_reply_update r u a st ts ptms tc hand reason tid).hand_off_to_human_reason =
              some none)
        ∧ (reason = none → hand ≠ some true →
            (apply_reply_update r u a st ts ptms tc hand reason tid).hand_off_to_human_reason =
              r.hand_off_to_human_reason)) := by
  refine ⟨?_, ?_, ?_, ?_, ?_⟩
  · intro hf
    subst hf
    simp [update_conversation_after_reply]
  · intro hf
    subst hf
    match row with
    | none => simp [update_conversation_after_reply]
    | some r =>
      by_cases h : r.conversation_status = some PROCESSING_STATUS
      · simp [update_conversation_after_reply, h]
      · simp [update_conversation_after_reply, h]
  · intro hf
    subst hf
    match row with
    | none => simp [update_conversation_after_reply]
    | some r =>
      by_cases h : r.conversation_status = some PROCESSING_STATUS
      · simp [update_conversation_after_reply, h]
      · simp [update_conversation_after_reply, h]
  · intro hne
    match hfault : fault with
    | true => simp [update_conversation_after_reply]
    | false =>
      match row with
      | none => simp [update_conversation_after_reply]
      | some r =>
        by_cases h : r.conversation_status = some PROCESSING_STATUS
        · exfalso
          apply hne
          simp [update_conversation_after_reply, h]
        · simp [update_conversation_after_reply, h]
  · intro r hf hrow hst
    subst hf
    subst hrow
    refine ⟨by simp [update_conversation_after_reply, hst], ?_, rfl, rfl, ?_, ?_, ?_, ?_, ?_,
      ?_, ?_, ?_, ?_, ?_, ?_⟩
    · simp [apply_reply_update]
    · intro h
      simp [apply_reply_update, h]
    · intro h
      simp [apply_reply_update, h]
    · intro h
      match ptms with
      | some v => simp [apply_reply_update]
      | none => simp at h
    · intro h
      subst h
      simp [apply_reply_update]
    · intro h
      match tc with
      | some v => simp [apply_reply_update]
      | none => simp at h
    · intro h
      subst h
      simp [apply_reply_update]
    · intro h
      match hand with
      | some v => simp [apply_reply_update]
      | none => simp at h
    · intro h
      subst h
      simp [apply_reply_update]
    · intro s h
      subst h
      simp [apply_reply_update]
    · intro h1 h2
      subst h1
      subst h2
      simp [apply_reply_update]
    · intro h1 h2
      subst h1
      simp [apply_reply_update, h2]

/-- Witness row used by concrete instantiations of the commit
theorem. -/
def convRowW : ConvRow :=
  { conversation_status := some PROCESSING_STATUS
    updated_at := some "2025-04-01T10:00:00"
    message_history := some []
    openai_thread_id := some "thread_1"
    initial_processing_time_ms := none
    task_complete := some 0
    hand_off_to_human := some false
    hand_off_to_human_reason := none }

/-- Witness user turn. -/
def userTurnW : MessageMap :=
  { message_id := "SM1", timestamp := "t1", role := "user", content := "Hello"
    prompt_tokens := none, completion_tokens := none, total_tokens := none }

/-- Witness assistant turn. -/
def assistantTurnW : MessageMap :=
  { message_id := "SMout", timestamp := "t2", role := "assistant", content := "Hi"
    prompt_tokens := some 10, completion_tokens := some 20, total_tokens := some 30 }

/-- Concrete instantiation of the commit theorem: on a locked row the
update succeeds and appends exactly the user and assistant turns. -/
theorem commit_reply_conditional_update_spec_witness :
    update_conversation_after_reply (some convRowW) false userTurnW assistantTurnW
        "reply_sent" "t3" (some 1234) (some 0) (some false) none none =
      (UpdateOutcome.success,
        some (apply_reply_update convRowW userTurnW assistantTurnW "reply_sent" "t3"
          (some 1234) (some 0) (some false) none none))
    ∧ (apply_reply_update convRowW userTurnW assistantTurnW "reply_sent" "t3"
        (some 1234) (some 0) (some false) none none).message_history =
      some (convRowW.message_history.getD [] ++ [userTurnW, assistantTurnW]) := by
  have h := (commit_reply_conditional_update_spec (some convRowW) false userTurnW
    assistantTurnW "reply_sent" "t3" (some 1234) (some 0) (some false) none none).2.2.2.2
    convRowW rfl rfl (by rfl)
  exact ⟨h.1, h.2.1⟩

/-- C6: the Stage B merge is independent of arrival order.  The merge
sorts the fragments ascending by `(received_at, message_sid)`, joins
the bodies with a newline separator, and takes `first_message_sid` from
the tie-broken earliest fragment; for fragment sets with pairwise
distinct `message_sid` - as staging-table query results are, the sid
being the table sort key - any permutation of the same fragments yields
the same `combined_body` and the same `first_message_sid`. -/
theorem merge_order_independent (l₁ l₂ : List Fragment)
    (hperm : l₁.Perm l₂) (hnd : (l₁.map Fragment.message_sid).Nodup) :
    combinedBody l₁ = combinedBody l₂ ∧ firstMessageSid l₁ = firstMessageSid l₂ := by
  have h := sortFragments_perm_invariant hperm hnd
  constructor
  · simp [combinedBody, h]
  · simp [firstMessageSid, h]

/-- Witness fragment arriving first. -/
def fragW1 : Fragment :=
  { conversation_id := "conv1", message_sid := "SM1", primary_channel := some "+447111"
    body := some "Hello", received_at := "2025-04-01T10:00:00" }

/-- Witness fragment arriving second. -/
def fragW2 : Fragment :=
  { conversation_id := "conv1", message_sid := "SM2", primary_channel := some "+447111"
    body := some "there", received_at := "2025-04-01T10:00:02" }

/-- Concrete instantiation of the merge theorem on a two-fragment batch
delivered in the two possible orders. -/
theorem merge_order_independent_witness :
    combinedBody [fragW1, fragW2] = combinedBody [fragW2, fragW1]
    ∧ firstMessageSid [fragW1, fragW2] = firstMessageSid [fragW2, fragW1] :=
  merge_order_independent [fragW1, fragW2] [fragW2, fragW1]
    (List.Perm.swap fragW2 fragW1 []) (by decide)

/-- C8: the polling loop of `process_reply_with_ai` checks the
540-second timeout before each retrieval and cancels the run and
returns TRANSIENT on expiry; `completed` exits into the success path;
`failed`, `cancelled`, `expired` and `requires_action` return
NON_TRANSIENT; any other status polls again after a 1-second sleep; and
the exception classification maps rate-limit, connection, timeout and
server-side errors to TRANSIENT and authentication, permission,
not-found and bad-request errors to NON_TRANSIENT. -/
theorem ai_polling_and_error_classification :
    polling_interval_seconds = 1 ∧ polling_timeout_seconds = 540
    ∧ (∀ (o : PollObs) (rest : List PollObs), o.elapsed > polling_timeout_seconds →
        poll_run_status (o :: rest) = PollResult.transientTimeout
        ∧ poll_cancel_attempted (poll_run_status (o :: rest)) = true
        ∧ poll_exit_status (poll_run_status (o :: rest)) = some AI_TRANSIENT_ERROR)
    ∧ (∀ (o : PollObs) (rest : List PollObs), o.elapsed ≤ polling_timeout_seconds →
        o.status = "completed" → poll_run_status (o :: rest) = PollResult.completed)
    ∧ (∀ (o : PollObs) (rest : List PollObs), o.elapsed ≤ polling_timeout_seconds →
        (o.status = "failed" ∨ o.status = "cancelled" ∨ o.status = "expired") →
        poll_run_status (o :: rest) = PollResult.nonTransientTerminal o.status
        ∧ poll_exit_status (poll_run_status (o :: rest)) = some AI_NON_TRANSIENT_ERROR)
    ∧ (∀ (o : PollObs) (rest : List PollObs), o.elapsed ≤ polling_timeout_seconds →
        o.status = "requires_action" →
        poll_run_status (o :: rest) = PollResult.nonTransientActionRequired
        ∧ poll_exit_status (poll_run_status (o :: rest)) = some AI_NON_TRANSIENT_ERROR)
    ∧ (∀ (o : PollObs) (rest : List PollObs), o.elapsed ≤ polling_timeout_seconds →
        o.status ≠ "completed" → o.status ≠ "failed" → o.status ≠ "cancelled" →
        o.status ≠ "expired" → o.status ≠ "requires_action" →
        poll_run_status (o :: rest) = poll_run_status rest)
    ∧ classify_openai_error OpenAIErr.rateLimit = AI_TRANSIENT_ERROR
    ∧ classify_openai_error OpenAIErr.apiConnection = AI_TRANSIENT_ERROR
    ∧ classify_openai_error OpenAIErr.timeoutErr = AI_TRANSIENT_ERROR
    ∧ classify_openai_error OpenAIErr.internalServer = AI_TRANSIENT_ERROR
    ∧ classify_openai_error OpenAIErr.authentication = AI_NON_TRANSIENT_ERROR
    ∧ classify_openai_error OpenAIErr.permissionDenied = AI_NON_TRANSIENT_ERROR
    ∧ classify_openai_error OpenAIErr.notFound = AI_NON_TRANSIENT_ERROR
    ∧ classify_openai_error OpenAIErr.badRequest = AI_NON_TRANSIENT_ERROR := by
  refine ⟨rfl, rfl, ?_, ?_, ?_, ?_, ?_, rfl, rfl, rfl, rfl, rfl, rfl, rfl, rfl⟩
  · intro o rest h
    have hgt : o.elapsed > polling_timeout_seconds := h
    refine ⟨?_, ?_, ?_⟩ <;> simp [poll_run_status, hgt]
    · rfl
    · rfl
  · intro o rest h hs
    have hle : ¬ o.elapsed > polling_timeout_seconds := by omega
    simp [poll_run_status, hle, hs]
  · intro o rest h hs
    have hle : ¬ o.elapsed > polling_timeout_seconds := by omega
    have hnc : o.status ≠ "completed" := by
      rcases hs with h' | h' | h' <;> rw [h'] <;> decide
    refine ⟨?_, ?_⟩ <;> simp [poll_run_status, hle, hnc, hs]
    · rfl
  · intro o rest h hs
    have hle : ¬ o.elapsed > polling_timeout_seconds := by omega
    have hnc : o.status ≠ "completed" := by rw [hs]; decide
    have hnt : ¬ (o.status = "failed" ∨ o.status = "cancelled" ∨ o.status = "expired") := by
      rw [hs]; decide
    refine ⟨?_, ?_⟩ <;> simp [poll_run_status, hle, hnc, hnt, hs]
    · rfl
  · intro o rest h h1 h2 h3 h4 h5
    have hle : ¬ o.elapsed > polling_timeout_seconds := by omega
    simp [poll_run_status, hle, h1, h2, h3, h4, h5]

/-- Concrete instantiations of the polling theorem: timeout at 541
seconds, completion, a failed run, and one extra poll on a pending
status. -/
theorem ai_polling_and_error_classification_witness :
    poll_run_status [⟨541, "in_progress"⟩] = PollResult.transientTimeout
    ∧ poll_run_status [⟨3, "completed"⟩] = PollResult.completed
    ∧ poll_exit_status (poll_run_status [⟨3, "failed"⟩]) = some AI_NON_TRANSIENT_ERROR
    ∧ poll_run_status [⟨3, "in_progress"⟩, ⟨4, "completed"⟩] =
        poll_run_status [⟨4, "completed"⟩] := by
  obtain ⟨-, -, h3, h4, h5, -, h7, -⟩ := ai_polling_and_error_classification
  refine ⟨(h3 ⟨541, "in_progress"⟩ [] (by decide)).1,
    h4 ⟨3, "completed"⟩ [] (by decide) rfl,
    (h5 ⟨3, "failed"⟩ [] (by decide) (Or.inl rfl)).2,
    h7 ⟨3, "in_progress"⟩ [⟨4, "completed"⟩] (by decide) (by decide) (by decide) (by decide)
      (by decide) (by decide)⟩

/-- C7 counterexample: CONVERSATION_LOCKED is a classified
non-transient error on a telephony channel, yet its response body is
the please-wait TwiML Message element, not the empty TwiML body the
claim asserts for every non-whitelisted error. -/
theorem conversation_locked_twiml_nonempty_cex :
    determine_final_error_response "whatsapp" "CONVERSATION_LOCKED" "locked" =
      StageAOutcome.respond (create_twiml_error_response conversation_locked_message)
    ∧ "CONVERSATION_LOCKED" ∉ TRANSIENT_ERROR_CODES
    ∧ (create_twiml_error_response conversation_locked_message).statusCode = 200
    ∧ create_twiml_error_response conversation_locked_message ≠
        create_success_response_twiml := by
  refine ⟨rfl, by decide, rfl, by decide⟩

/-- C7 as amended: on the telephony channels the error mapping raises
exactly for the five whitelisted transient codes; every other
classified error is answered with HTTP 200 and a TwiML body, which is
the empty Response element except for CONVERSATION_LOCKED, answered
with the please-wait Message element; INVALID_SIGNATURE in particular
is always answered with 200 and the empty TwiML body. -/
theorem telephony_error_surfacing_policy (ch code msg : String)
    (hch : ch = "whatsapp" ∨ ch = "sms") :
    (determine_final_error_response ch code msg = StageAOutcome.raised code ↔
      code ∈ TRANSIENT_ERROR_CODES)
    ∧ (code ∉ TRANSIENT_ERROR_CODES →
        determine_final_error_response ch code msg =
          StageAOutcome.respond
            (if code = "CONVERSATION_LOCKED" then
              create_twiml_error_response conversation_locked_message
            else create_success_response_twiml))
    ∧ (code = "INVALID_SIGNATURE" →
        determine_final_error_response ch code msg =
          StageAOutcome.respond create_success_response_twiml) := by
  have hch' : ch = "whatsapp" ∨ ch = "sms" := hch
  by_cases hmem : code ∈ TRANSIENT_ERROR_CODES
  · refine ⟨?_, ?_, ?_⟩
    · simp [determine_final_error_response, hch', hmem]
    · intro h
      exact absurd hmem h
    · intro h
      subst h
      simp [TRANSIENT_ERROR_CODES] at hmem
  · by_cases hlock : code = "CONVERSATION_LOCKED"
    · subst hlock
      refine ⟨?_, ?_, ?_⟩
      · simp [determine_final_error_response, hch', hmem]
      · intro _
        simp [determine_final_error_response, hch', hmem]
      · intro h
        simp at h
    · by_cases hsig : code = "INVALID_SIGNATURE"
      · subst hsig
        refine ⟨?_, ?_, ?_⟩
        · simp [determine_final_error_response, hch', hmem]
        · intro _
          simp [determine_final_error_response, hch', hmem]
        · intro _
          simp [determine_final_error_response, hch', hmem]
      · refine ⟨?_, ?_, ?_⟩
        · simp [determine_final_error_response, hch', hmem, hlock, hsig]
        · intro _
          simp [determine_final_error_response, hch', hmem, hlock, hsig]
        · intro h
          exact absurd h hsig

/-- Concrete instantiations of the amended error-surfacing policy: a
whitelisted transient code raises, an arbitrary non-transient code and
INVALID_SIGNATURE are answered with the empty 200 TwiML. -/
theorem telephony_error_surfacing_policy_witness :
    determine_final_error_response "whatsapp" "SQS_TRANSIENT_ERROR" "m" =
      StageAOutcome.raised "SQS_TRANSIENT_ERROR"
    ∧ determine_final_error_response "sms" "PARSING_ERROR" "m" =
        StageAOutcome.respond create_success_response_twiml
    ∧ determine_final_error_response "whatsapp" "INVALID_SIGNATURE" "m" =
        StageAOutcome.respond create_success_response_twiml := by
  have h1 := (telephony_error_surfacing_policy "whatsapp" "SQS_TRANSIENT_ERROR" "m"
    (Or.inl rfl)).1.mpr (by decide)
  have h2 := (telephony_error_surfacing_policy "sms" "PARSING_ERROR" "m"
    (Or.inr rfl)).2.1 (by decide)
  have h3 := (telephony_error_surfacing_policy "whatsapp" "INVALID_SIGNATURE" "m"
    (Or.inl rfl)).2.2 rfl
  refine ⟨h1, ?_, h3⟩
  rw [h2]
  rfl

/-- C9: on the telephony channels the credential-reference GSI lookup
strips the `"<channel>:"` marker from both the company identifier (the
GSI partition key) and the user identifier (the GSI sort key) before
the query is issued, and the `primary_channel` placed in the minimal
trigger-queue message is the stripped form of the sender identifier. -/
theorem credential_lookup_strips_channel_tag (ch f t cid : String) (fa : Option String)
    (hch : ch = "whatsapp" ∨ ch = "sms") :
    credential_lookup_keys ch f t =
      some { index_name := (gsi_index_for ch).getD ""
             gsi_pk := dropChannelTag ch t
             gsi_sk := dropChannelTag ch f }
    ∧ (∀ m : TriggerMessage, trigger_message_body ch (some f) fa cid = some m →
        m.primary_channel = dropChannelTag ch f ∧ m.conversation_id = cid) := by
  constructor
  · rcases hch with rfl | rfl <;> simp [credential_lookup_keys, gsi_index_for]
  · rcases hch with rfl | rfl <;>
    · intro m hm
      by_cases hft : optTruthy (some f) = true
      · simp [trigger_message_body, hft] at hm
        rw [← hm.2]
        exact ⟨rfl, rfl⟩
      · simp [trigger_message_body, hft] at hm

/-- Concrete instantiation of the key-stripping theorem on a WhatsApp
sender and company number carrying the channel marker. -/
theorem credential_lookup_strips_channel_tag_witness :
    credential_lookup_keys "whatsapp" "whatsapp:+447111222333" "whatsapp:+15550001111" =
      some { index_name := "company-whatsapp-number-recipient-tel-index"
             gsi_pk := "+15550001111", gsi_sk := "+447111222333" }
    ∧ (∀ m : TriggerMessage,
        trigger_message_body "whatsapp" (some "whatsapp:+447111222333") none "conv1" = some m →
        m.primary_channel = dropChannelTag "whatsapp" "whatsapp:+447111222333"
        ∧ m.conversation_id = "conv1")
    ∧ dropChannelTag "whatsapp" "whatsapp:+447111222333" = "+447111222333" := by
  have h := credential_lookup_strips_channel_tag "whatsapp" "whatsapp:+447111222333"
    "whatsapp:+15550001111" "conv1" none (Or.inl rfl)
  have hdrop : dropChannelTag "whatsapp" "whatsapp:+447111222333" = "+447111222333" := by
    decide
  have hpk : dropChannelTag "whatsapp" "whatsapp:+15550001111" = "+15550001111" := by
    decide
  refine ⟨?_, h.2, hdrop⟩
  rw [h.1, hdrop, hpk]
  rfl

theorem stageBSend_sent_or_not_failed (env : RecordEnv) (hb : Bool) (conv : ConvData)
    (tsec : TwilioSecret) (rc : String) :
    (stageBSend env hb conv tsec rc).sent = false ∨
      (stageBSend env hb conv tsec rc).failedMid = false := by
  unfold stageBSend
  repeat' split
  all_goals first | (left; rfl) | (right; rfl)

theorem stageBAi_sent_or_not_failed (env : RecordEnv) (hb : Bool) (conv : ConvData)
    (osec : OpenAISecret) (tsec : TwilioSecret) (cb : String) :
    (stageBAi env hb conv osec tsec cb).sent = false ∨
      (stageBAi env hb conv osec tsec cb).failedMid = false := by
  unfold stageBAi
  repeat' split
  all_goals first
    | (left; rfl)
    | (right; rfl)
    | exact stageBSend_sent_or_not_failed env hb conv tsec _

theorem stageBSecrets_sent_or_not_failed (env : RecordEnv) (hb : Bool) (conv : ConvData)
    (cb : String) :
    (stageBSecrets env hb conv cb).sent = false ∨
      (stageBSecrets env hb conv cb).failedMid = false := by
  unfold stageBSecrets
  repeat' split
  all_goals first
    | (left; rfl)
    | (right; rfl)
    | exact stageBAi_sent_or_not_failed env hb conv _ _ cb

theorem stageBLocked_sent_or_not_failed (env : RecordEnv) (hb : Bool) :
    (stageBLocked env hb).sent = false ∨ (stageBLocked env hb).failedMid = false := by
  unfold stageBLocked
  repeat' split
  all_goals first
    | (left; rfl)
    | (right; rfl)
    | exact stageBSecrets_sent_or_not_failed env hb _ _

theorem runMid_sent_not_failed (env : RecordEnv) :
    (runMid env).sent = true → (runMid env).failedMid = false := by
  have hd : (runMid env).sent = false ∨ (runMid env).failedMid = false := by
    unfold runMid
    repeat' split
    all_goals first
      | (left; rfl)
      | (right; rfl)
      | exact stageBLocked_sent_or_not_failed env (env.hasReceiptHandle && env.hbStartOk)
  intro h
  rcases hd with hd | hd
  · rw [h] at hd
    exact absurd hd (by simp)
  · exact hd

/-- Environment of a trigger record whose staging query returns no
fragments after the processing lock was acquired; every later outcome
is irrelevant because the handler never reaches it. -/
def envEmptyStaging : RecordEnv :=
  { bodyPresent := true, bodyParses := true
    sqs_conversation_id := some "conv1", sqs_primary_channel := some "+447111"
    lock_status := "ACQUIRED", hasReceiptHandle := true, hbStartOk := true
    hbRunningAtStop := true, hbErrorReported := false
    staging_query := some []
    conversation_item := none
    openai_secret := SecretResult.permanentErr, twilio_secret := SecretResult.permanentErr
    ai_outcome := AiOutcome.nonTransientErr, ai_parsed_content := none
    twilio_outcome := TwilioOutcome.nonTransientErr, commit_outcome := UpdateOutcome.dbError
    cleanup_staging_ok := true, cleanup_lock_ok := true }

/-- C2 counterexample: on an empty staging batch the record is
acknowledged (not marked failed), but the compensating
`release_lock_for_retry` update is NOT issued - the last status written
to the conversation row remains `processing_reply`, so the processing
lock is not released with status retry as the claim asserts. -/
theorem empty_staging_lock_not_released_cex :
    (processRecord envEmptyStaging).failed = false
    ∧ (processRecord envEmptyStaging).lockAcquired = true
    ∧ (processRecord envEmptyStaging).releasedRetry = false
    ∧ (processRecord envEmptyStaging).lastStatusWrite = some PROCESSING_STATUS := by
  refine ⟨rfl, rfl, rfl, rfl⟩

/-- C2 as amended: whenever the staging query returns an empty fragment
list after the processing lock was acquired, the handler exits cleanly,
acknowledging the trigger message without marking it failed - but it
does not release the processing lock: `release_lock_for_retry` is
invoked only for records marked failed, so on this path (absent a
heartbeat error) no compensating update runs and `conversation_status`
stays `processing_reply`. -/
theorem empty_staging_acks_and_keeps_lock (env : RecordEnv)
    (h1 : env.bodyPresent = true) (h2 : env.bodyParses = true)
    (h3 : optTruthy env.sqs_conversation_id = true)
    (h4 : optTruthy env.sqs_primary_channel = true)
    (h5 : env.lock_status = "ACQUIRED")
    (h6 : env.staging_query = some [])
    (h7 : env.hbErrorReported = false) :
    (processRecord env).failed = false
    ∧ (processRecord env).releasedRetry = false
    ∧ (processRecord env).lockAcquired = true
    ∧ (processRecord env).lastStatusWrite = some PROCESSING_STATUS := by
  have hmid : runMid env =
      { failedMid := false, lockAcquired := true
        hbStarted := env.hasReceiptHandle && env.hbStartOk, sent := false
        committed := false } := by
    unfold runMid stageBLocked
    simp [h1, h2, h3, h4, h5, h6]
  unfold processRecord finalizeRecord
  rw [hmid]
  simp [h7]

/-- Concrete instantiation of the amended empty-staging theorem. -/
theorem empty_staging_acks_and_keeps_lock_witness :
    (processRecord envEmptyStaging).failed = false
    ∧ (processRecord envEmptyStaging).releasedRetry = false
    ∧ (processRecord envEmptyStaging).lockAcquired = true
    ∧ (processRecord envEmptyStaging).lastStatusWrite = some PROCESSING_STATUS :=
  empty_staging_acks_and_keeps_lock envEmptyStaging rfl rfl rfl rfl rfl rfl rfl

/-- Staged fragment of the post-send counterexample batch. -/
def fragB1 : Fragment :=
  { conversation_id := "conv1", message_sid := "SM1", primary_channel := some "+447111"
    body := some "Hello", received_at := "2025-04-01T10:00:00" }

/-- Conversation item of the post-send counterexample. -/
def convDataB : ConvData :=
  { thread_id := some "thread_1", api_key_reference := some "openai_ref"
    assistant_id_replies := some "asst_1", whatsapp_credentials_id := some "twilio_ref"
    company_whatsapp_number := some "+15550001111", hand_off_to_human := false
    hand_off_to_human_reason := none, task_complete := 0 }

/-- Environment of a record whose whole pipeline - merge, secrets, AI,
Twilio send, commit - succeeds, but whose heartbeat thread reported an
error that the finally block observes. -/
def envPostSendHb : RecordEnv :=
  { bodyPresent := true, bodyParses := true
    sqs_conversation_id := some "conv1", sqs_primary_channel := some "+447111"
    lock_status := "ACQUIRED", hasReceiptHandle := true, hbStartOk := true
    hbRunningAtStop := true, hbErrorReported := true
    staging_query := some [fragB1]
    conversation_item := some convDataB
    openai_secret := SecretResult.ok { ai_api_key := some "sk-key" }
    twilio_secret := SecretResult.ok
      { twilio_account_sid := some "AC1", twilio_auth_token := some "tok" }
    ai_outcome := AiOutcome.ok "reply-json" 10 20 30
    ai_parsed_content := some "Hi there"
    twilio_outcome := TwilioOutcome.ok "SMout" "Hi there"
    commit_outcome := UpdateOutcome.success
    cleanup_staging_ok := true, cleanup_lock_ok := true }

/-- C3 counterexample: a run in which the provider send succeeded (and
even the commit succeeded) is nevertheless added to the batch item
failures, because the finally block marks the record failed when the
still-running heartbeat reports an error - so the broker redelivers a
message whose reply was already sent. -/
theorem post_send_heartbeat_failure_retried_cex :
    (processRecord envPostSendHb).sent = true
    ∧ (processRecord envPostSendHb).committed = true
    ∧ (processRecord envPostSendHb).failed = true
    ∧ (processRecord envPostSendHb).releasedRetry = true := by
  refine ⟨rfl, rfl, rfl, rfl⟩

/-- C3 as amended: after a successful provider send, no later step of
the record pipeline - in particular CommitReply returning LOCK_LOST or
a DB error - marks the queue message failed, so the broker does not
redeliver it; the single exception is a heartbeat error observed in the
finally block, which still fails the record and releases the lock for
retry. -/
theorem post_send_acked_unless_heartbeat_error (env : RecordEnv)
    (hsent : (processRecord env).sent = true)
    (hhb : env.hbErrorReported = false) :
    (processRecord env).failed = false ∧ (processRecord env).releasedRetry = false := by
  have hms : (runMid env).sent = true := hsent
  have hfail : (runMid env).failedMid = false := runMid_sent_not_failed env hms
  unfold processRecord finalizeRecord
  simp [hfail, hhb]

/-- Concrete instantiation of the amended post-send theorem: the same
successful pipeline with a healthy heartbeat is acknowledged. -/
def envPostSendOk : RecordEnv :=
  { envPostSendHb with hbErrorReported := false }

/-- Applies the amended post-send theorem at a concrete successful
run. -/
theorem post_send_acked_unless_heartbeat_error_witness :
    (processRecord envPostSendOk).sent = true
    ∧ (processRecord envPostSendOk).failed = false
    ∧ (processRecord envPostSendOk).releasedRetry = false := by
  have h := post_send_acked_unless_heartbeat_error envPostSendOk (by rfl) rfl
  exact ⟨rfl, h.1, h.2⟩

/-- C4: on a telephony request whose provider signature does not verify
- a missing or empty X-Twilio-Signature header being treated as invalid
- Stage A performs no staging-table write, no queue enqueue and no
trigger-lock write: the only external calls it can have made are the
credential lookup, the secret fetch and the signature validation
itself, and the request is answered before the staging step is
reached.  Stage A contains no AI or provider-send operation at all, so
none can occur either. -/
theorem invalid_signature_no_side_effects (env : StageAEnv)
    (hch : env.channel_type = some "whatsapp" ∨ env.channel_type = some "sms")
    (hsig : optTruthy env.signature_header = false ∨ env.signature_valid = false) :
    AEvent.stageWrite ∉ (stageA env).events
    ∧ AEvent.enqueueHandoff ∉ (stageA env).events
    ∧ AEvent.enqueueChannel ∉ (stageA env).events
    ∧ AEvent.acquireTrigger ∉ (stageA env).events
    ∧ ∀ e ∈ (stageA env).events,
        e = AEvent.credLookup ∨ e = AEvent.secretFetch ∨ e = AEvent.sigValidate := by
  have hshape : (stageA env).events ∈
      ([[], [AEvent.credLookup], [AEvent.credLookup, AEvent.secretFetch],
        [AEvent.credLookup, AEvent.secretFetch, AEvent.sigValidate]] :
        List (List AEvent)) := by
    unfold stageA
    repeat' split
    all_goals simp_all
  rcases List.mem_cons.mp hshape with he | hshape
  · rw [he]
    exact ⟨by decide, by decide, by decide, by decide, by decide⟩
  rcases List.mem_cons.mp hshape with he | hshape
  · rw [he]
    exact ⟨by decide, by decide, by decide, by decide, by decide⟩
  rcases List.mem_cons.mp hshape with he | hshape
  · rw [he]
    exact ⟨by decide, by decide, by decide, by decide, by decide⟩
  rcases List.mem_cons.mp hshape with he | hshape
  · rw [he]
    exact ⟨by decide, by decide, by decide, by decide, by decide⟩
  · exact absurd hshape (by simp)

/-- Environment of a webhook request carrying an invalid signature on
the WhatsApp channel, with every later call set up to succeed (none is
reached). -/
def envBadSig : StageAEnv :=
  { parseOk := true, channel_type := some "whatsapp", from_id := some "whatsapp:+447111"
    to_id := some "whatsapp:+15550001111", signature_header := some "sig-header"
    request_url_ok := true, cred_lookup_status := "FOUND"
    secret_token := some "auth-token", signature_valid := false
    full_conv_status := "FOUND", rules_valid := true, rules_error_code := ""
    route := RouteDecision.channelQueue, stage_write_status := "SUCCESS"
    trigger_lock_status := "ACQUIRED", sqs_send_status := "SUCCESS" }

/-- Applies the signature-gating theorem at a concrete invalid-signature
request, and checks the answer is the empty 200 TwiML. -/
theorem invalid_signature_no_side_effects_witness :
    AEvent.stageWrite ∉ (stageA envBadSig).events
    ∧ AEvent.enqueueChannel ∉ (stageA envBadSig).events
    ∧ (stageA envBadSig).outcome = StageAOutcome.respond create_success_response_twiml := by
  have h := invalid_signature_no_side_effects envBadSig (Or.inl rfl) (Or.inr rfl)
  exact ⟨h.1, h.2.2.1, rfl⟩

/-- Ordering and gating facts of one Stage A result, relative to the
trigger-lock outcome of its environment. -/
abbrev triggerOrderSpec (env : StageAEnv) (r : StageAResult) : Prop :=
  (AEvent.acquireTrigger ∈ r.events →
    r.events.take 6 =
      [AEvent.credLookup, AEvent.secretFetch, AEvent.sigValidate, AEvent.fullConvFetch,
       AEvent.stageWrite, AEvent.acquireTrigger])
  ∧ (AEvent.enqueueChannel ∈ r.events ↔
      (AEvent.acquireTrigger ∈ r.events ∧ env.trigger_lock_status = "ACQUIRED"))
  ∧ (AEvent.acquireTrigger ∈ r.events → env.trigger_lock_status = "EXISTS" →
      r.outcome = success_ack (env.channel_type.getD "")
      ∧ AEvent.enqueueChannel ∉ r.events)

/-- C5: on the channel-batch-queue route, Stage A writes the staging
row strictly before calling AcquireTriggerLock (whenever the lock call
happens the trace starts with lookup, secret fetch, validation, full
fetch, stage write, and only then the lock call); it enqueues the
delayed trigger exactly when the lock call happens and returns
ACQUIRED; on EXISTS it acknowledges the webhook without enqueuing; and
at the table, `acquire_trigger_lock` - a put guarded by
`attribute_not_exists(conversation_id)` - returns ACQUIRED exactly when
the slot is empty, so at most one trigger is enqueued per batch window
per conversation. -/
theorem staging_before_trigger_and_enqueue_iff_acquired (env : StageAEnv)
    (hroute : env.route = RouteDecision.channelQueue) :
    triggerOrderSpec env (stageA env)
    ∧ (∀ (slot : Option Nat) (now w buffer : Nat),
        ((acquire_trigger_lock slot now w buffer none).fst = "ACQUIRED" ↔ slot = none)
        ∧ acquire_trigger_lock none now w buffer none = ("ACQUIRED", some (now + w + buffer))
        ∧ (∀ e, acquire_trigger_lock (some e) now w buffer none = ("EXISTS", some e))) := by
  have keyV : ∀ r : StageAResult, stageAValidated env = r → triggerOrderSpec env r := by
    intro r hr
    unfold stageAValidated at hr
    repeat' split at hr
    all_goals subst hr
    all_goals simp_all [triggerOrderSpec]
  have key : ∀ r : StageAResult, stageA env = r → triggerOrderSpec env r := by
    intro r hr
    unfold stageA at hr
    repeat' split at hr
    all_goals first
      | exact keyV r hr
      | (subst hr; simp_all [triggerOrderSpec])
  refine ⟨key (stageA env) rfl, ?_⟩
  intro slot now w buffer
  cases slot <;> simp [acquire_trigger_lock]

/-- Environment of a validated WhatsApp webhook routed to the channel
batch queue whose trigger lock is acquired. -/
def envGoodSig : StageAEnv :=
  { envBadSig with signature_valid := true }

/-- Applies the trigger-ordering theorem at a concrete validated
request: the trace stages before locking and enqueues after ACQUIRED. -/
theorem staging_before_trigger_and_enqueue_iff_acquired_witness :
    (stageA envGoodSig).events =
      [AEvent.credLookup, AEvent.secretFetch, AEvent.sigValidate, AEvent.fullConvFetch,
       AEvent.stageWrite, AEvent.acquireTrigger, AEvent.enqueueChannel]
    ∧ (stageA envGoodSig).events.take 6 =
      [AEvent.credLookup, AEvent.secretFetch, AEvent.sigValidate, AEvent.fullConvFetch,
       AEvent.stageWrite, AEvent.acquireTrigger]
    ∧ (AEvent.enqueueChannel ∈ (stageA envGoodSig).events
        ∧ envGoodSig.trigger_lock_status = "ACQUIRED")
    ∧ acquire_trigger_lock none 1000 10 60 none = ("ACQUIRED", some 1070) := by
  have he : (stageA envGoodSig).events =
      [AEvent.credLookup, AEvent.secretFetch, AEvent.sigValidate, AEvent.fullConvFetch,
       AEvent.stageWrite, AEvent.acquireTrigger, AEvent.enqueueChannel] := rfl
  have h := staging_before_trigger_and_enqueue_iff_acquired envGoodSig rfl
  refine ⟨he, h.1.1 ?_, ?_, ?_⟩
  · rw [he]
    decide
  · refine ⟨?_, rfl⟩
    rw [he]
    decide
  · exact (h.2 none 1000 10 60).2.1
